import Mathlib

/-!
Verification of the dashboard engine of `EarningsEdgeDetection`
(`src/cli_scanner`): layout computation, round-robin card packing,
mouse hit-testing, the iron-fly payoff function, grid clipping, and the
refresh coordinator's state updates.

Python numbers are modelled as `ℚ` (all arithmetic appearing here is
exact on the inputs we consider), Python `//` as `Int.fdiv` (floor
division), and Python `int(...)` truncation toward zero as `pyTrunc`.
-/

namespace EarningsEdge

/-- Python `int(q)`: truncation toward zero. -/
def pyTrunc (q : ℚ) : ℤ :=
  if q < 0 then -⌊-q⌋ else ⌊q⌋

/-- Python `a // b` (floor division). -/
def pydiv (a b : ℤ) : ℤ := Int.fdiv a b

/-! ## `ui/trade_graph.py`: `calculate_iron_fly_pnl` -/

/-- A Python value passed to `calculate_iron_fly_pnl`: either a number
(`int`/`float`, modelled as `ℚ`) or some non-numeric value, which the
`isinstance` guard rejects. -/
inductive PyVal where
  | num (q : ℚ)
  | other
deriving DecidableEq

/-- `True` iff the `isinstance(x, (int, float))` check passes. -/
def PyVal.isNum : PyVal → Bool
  | .num _ => true
  | .other => false

/-- `sorted([long_put_strike, short_put_strike, short_call_strike,
long_call_strike])` from the out-of-order fallback branch
(`trade_graph.py` line 24). Python's `sorted` is a stable comparison
sort; on values, any sorting algorithm agrees, so we use insertion
sort. -/
def sortedStrikes (lp sp sc lc : ℚ) : List ℚ :=
  List.insertionSort (· ≤ ·) [lp, sp, sc, lc]

/-- The strike tuple `(lp, sp, sc, lc)` actually used by the piecewise
computation: the inputs if already chained `lp ≤ sp ≤ sc ≤ lc`,
otherwise the sorted values reassigned in order
(`trade_graph.py` lines 22-25). -/
def ironFlyStrikes (sp sc lp lc : ℚ) : ℚ × ℚ × ℚ × ℚ :=
  if lp ≤ sp ∧ sp ≤ sc ∧ sc ≤ lc then (lp, sp, sc, lc)
  else
    match sortedStrikes lp sp sc lc with
    | [a, b, c, d] => (a, b, c, d)
    | _ => (lp, sp, sc, lc)  -- unreachable: the sort of a 4-list is a 4-list

/-- `calculate_iron_fly_pnl` on numeric arguments (`trade_graph.py`
lines 10-55), in the source's argument order
`(price, short_put, short_call, long_put, long_call, net_credit)`. -/
def calculate_iron_fly_pnl (price sp sc lp lc credit : ℚ) : ℚ :=
  if price ≤ 0 ∨ sp ≤ 0 ∨ sc ≤ 0 ∨ lp ≤ 0 ∨ lc ≤ 0 then 0
  else
    match ironFlyStrikes sp sc lp lc with
    | (lp', sp', sc', lc') =>
      let put_width := sp' - lp'
      let call_width := lc' - sc'
      if price ≤ lp' then credit - put_width
      else if price < sp' then credit - (sp' - price)
      else if price ≤ sc' then credit
      else if price < lc' then credit - (price - sc')
      else credit - call_width

/-- `calculate_iron_fly_pnl` including the `isinstance` guard on all six
arguments: any non-numeric argument yields `0`. -/
def calculate_iron_fly_pnl_py (price sp sc lp lc credit : PyVal) : ℚ :=
  match price, sp, sc, lp, lc, credit with
  | .num p, .num a, .num b, .num c, .num d, .num cr =>
      calculate_iron_fly_pnl p a b c d cr
  | _, _, _, _, _, _ => 0

/-- The piecewise iron-fly payoff exactly as written in the spec (§4.4),
for ordered strikes `lp ≤ sp ≤ sc ≤ lc`. -/
def specPayoff (p lp sp sc lc c : ℚ) : ℚ :=
  if p ≤ lp then c - (sp - lp)
  else if p < sp then c - (sp - p)
  else if p ≤ sc then c
  else if p < lc then c - (p - sc)
  else c - (lc - sc)

/-! ### Helper lemmas for the payoff function -/

lemma sortedStrikes_of_chain (lp sp sc lc : ℚ) (h1 : lp ≤ sp) (h2 : sp ≤ sc) (h3 : sc ≤ lc) :
    sortedStrikes lp sp sc lc = [lp, sp, sc, lc] := by
  refine List.Sorted.insertionSort_eq ?_
  refine List.Pairwise.cons ?_ (List.Pairwise.cons ?_ (List.Pairwise.cons ?_
    (List.pairwise_singleton _ _)))
  · intro b hb; simp at hb; rcases hb with rfl | rfl | rfl <;> linarith
  · intro b hb; simp at hb; rcases hb with rfl | rfl <;> linarith
  · intro b hb; simp at hb; rcases hb with rfl; linarith

lemma sortedStrikes_four (lp sp sc lc : ℚ) :
    ∃ a b c d, sortedStrikes lp sp sc lc = [a, b, c, d] := by
  have hlen : (sortedStrikes lp sp sc lc).length = 4 := by
    unfold sortedStrikes
    rw [List.length_insertionSort]
    rfl
  rcases hl : sortedStrikes lp sp sc lc with _ | ⟨a, _ | ⟨b, _ | ⟨c, _ | ⟨d, _ | t⟩⟩⟩⟩ <;>
    rw [hl] at hlen <;> simp at hlen
  exact ⟨a, b, c, d, rfl⟩

lemma sortedStrikes_sorted (lp sp sc lc : ℚ) :
    List.Sorted (· ≤ ·) (sortedStrikes lp sp sc lc) :=
  List.sorted_insertionSort _ _

lemma sortedStrikes_perm (lp sp sc lc : ℚ) :
    (sortedStrikes lp sp sc lc).Perm [lp, sp, sc, lc] :=
  List.perm_insertionSort _ _

lemma sortedStrikes_perm_invariant {lp sp sc lc lp' sp' sc' lc' : ℚ}
    (h : ([lp, sp, sc, lc] : List ℚ).Perm [lp', sp', sc', lc']) :
    sortedStrikes lp sp sc lc = sortedStrikes lp' sp' sc' lc' :=
  List.eq_of_perm_of_sorted
    (((sortedStrikes_perm lp sp sc lc).trans h).trans (sortedStrikes_perm lp' sp' sc' lc').symm)
    (sortedStrikes_sorted lp sp sc lc) (sortedStrikes_sorted lp' sp' sc' lc')

lemma ironFlyStrikes_eq_sorted (sp sc lp lc : ℚ) :
    ∃ a b c d, sortedStrikes lp sp sc lc = [a, b, c, d] ∧
      ironFlyStrikes sp sc lp lc = (a, b, c, d) := by
  by_cases h : lp ≤ sp ∧ sp ≤ sc ∧ sc ≤ lc
  · obtain ⟨h1, h2, h3⟩ := h
    refine ⟨lp, sp, sc, lc, sortedStrikes_of_chain lp sp sc lc h1 h2 h3, ?_⟩
    simp [ironFlyStrikes, h1, h2, h3]
  · obtain ⟨a, b, c, d, hs⟩ := sortedStrikes_four lp sp sc lc
    refine ⟨a, b, c, d, hs, ?_⟩
    simp [ironFlyStrikes, h, hs]

lemma pnl_pos_eq (p sp sc lp lc cr : ℚ) (hp : 0 < p) (hsp : 0 < sp) (hsc : 0 < sc)
    (hlp : 0 < lp) (hlc : 0 < lc) :
    ∃ a b c d, sortedStrikes lp sp sc lc = [a, b, c, d] ∧
      calculate_iron_fly_pnl p sp sc lp lc cr = specPayoff p a b c d cr := by
  obtain ⟨a, b, c, d, hs, hi⟩ := ironFlyStrikes_eq_sorted sp sc lp lc
  refine ⟨a, b, c, d, hs, ?_⟩
  have hguard : ¬(p ≤ 0 ∨ sp ≤ 0 ∨ sc ≤ 0 ∨ lp ≤ 0 ∨ lc ≤ 0) := by
    push_neg
    exact ⟨hp, hsp, hsc, hlp, hlc⟩
  rw [calculate_iron_fly_pnl, if_neg hguard, hi]
  rfl

lemma pnl_eq_spec_of_chain (p lp sp sc lc c : ℚ) (hp : 0 < p) (hlp : 0 < lp)
    (h1 : lp ≤ sp) (h2 : sp ≤ sc) (h3 : sc ≤ lc) :
    calculate_iron_fly_pnl p sp sc lp lc c = specPayoff p lp sp sc lc c := by
  have hsp : 0 < sp := lt_of_lt_of_le hlp h1
  have hsc : 0 < sc := lt_of_lt_of_le hsp h2
  have hlc : 0 < lc := lt_of_lt_of_le hsc h3
  obtain ⟨a, b, c', d', hs, heq⟩ := pnl_pos_eq p sp sc lp lc c hp hsp hsc hlp hlc
  rw [sortedStrikes_of_chain lp sp sc lc h1 h2 h3] at hs
  injection hs with e1 hs; injection hs with e2 hs; injection hs with e3 hs
  injection hs with e4 hs
  subst e1; subst e2; subst e3; subst e4
  exact heq

/-! ### Claim theorems for the payoff function -/

/-- C3: for every positive price `p` and positive strikes chained
`lp ≤ sp ≤ sc ≤ lc`, `calculate_iron_fly_pnl` equals the spec's piecewise
iron-fly payoff; at `sp` and `sc` the value is the net credit, at `lp` and
`lc` the respective max-loss values; and on strikes `(95,100,105,110)` with
credit `3` the payoff is `3` at `100`, `-2` at `90`, `-2` at `120`, and `3`
at `102.5`. -/
theorem iron_fly_pnl_matches_piecewise_spec (p lp sp sc lc c : ℚ)
    (hp : 0 < p) (hlp : 0 < lp) (h1 : lp ≤ sp) (h2 : sp ≤ sc) (h3 : sc ≤ lc) :
    calculate_iron_fly_pnl p sp sc lp lc c = specPayoff p lp sp sc lc c ∧
    calculate_iron_fly_pnl lp sp sc lp lc c = c - (sp - lp) ∧
    calculate_iron_fly_pnl sp sp sc lp lc c = c ∧
    calculate_iron_fly_pnl sc sp sc lp lc c = c ∧
    calculate_iron_fly_pnl lc sp sc lp lc c = c - (lc - sc) ∧
    calculate_iron_fly_pnl 100 100 105 95 110 3 = 3 ∧
    calculate_iron_fly_pnl 90 100 105 95 110 3 = -2 ∧
    calculate_iron_fly_pnl 120 100 105 95 110 3 = -2 ∧
    calculate_iron_fly_pnl (205/2) 100 105 95 110 3 = 3 := by
  have hsp : 0 < sp := lt_of_lt_of_le hlp h1
  have hsc : 0 < sc := lt_of_lt_of_le hsp h2
  have hlc : 0 < lc := lt_of_lt_of_le hsc h3
  refine ⟨pnl_eq_spec_of_chain p lp sp sc lc c hp hlp h1 h2 h3, ?_, ?_, ?_, ?_, ?_, ?_, ?_, ?_⟩
  · rw [pnl_eq_spec_of_chain lp lp sp sc lc c hlp hlp h1 h2 h3, specPayoff, if_pos le_rfl]
  · rw [pnl_eq_spec_of_chain sp lp sp sc lc c hsp hlp h1 h2 h3, specPayoff]
    split_ifs <;> linarith
  · rw [pnl_eq_spec_of_chain sc lp sp sc lc c hsc hlp h1 h2 h3, specPayoff]
    split_ifs <;> linarith
  · rw [pnl_eq_spec_of_chain lc lp sp sc lc c hlc hlp h1 h2 h3, specPayoff]
    split_ifs <;> linarith
  · norm_num [calculate_iron_fly_pnl, ironFlyStrikes]
  · norm_num [calculate_iron_fly_pnl, ironFlyStrikes]
  · norm_num [calculate_iron_fly_pnl, ironFlyStrikes]
  · norm_num [calculate_iron_fly_pnl, ironFlyStrikes]

/-- Witness for C3 at price 90, strikes (95,100,105,110), credit 3. -/
theorem iron_fly_pnl_matches_piecewise_spec_witness :
    (0:ℚ) < 90 ∧ (0:ℚ) < 95 ∧ (95:ℚ) ≤ 100 ∧ (100:ℚ) ≤ 105 ∧ (105:ℚ) ≤ 110 ∧
    calculate_iron_fly_pnl 90 100 105 95 110 3 = specPayoff 90 95 100 105 110 3 :=
  ⟨by decide, by decide, by decide, by decide, by decide,
    (iron_fly_pnl_matches_piecewise_spec 90 95 100 105 110 3
      (by decide) (by decide) (by decide) (by decide) (by decide)).1⟩

/-- C6: supplying the four (positive) strikes in any scrambled order never
changes the payoff: the result is invariant under permutations of the
strike arguments, and always equals the payoff computed with the strikes
reassigned in sorted order (smallest as long put, then short put, then
short call, largest as long call). -/
theorem iron_fly_pnl_perm_invariant (p cr sp sc lp lc sp' sc' lp' lc' : ℚ)
    (hp : 0 < p) (h1 : 0 < sp) (h2 : 0 < sc) (h3 : 0 < lp) (h4 : 0 < lc)
    (hperm : ([lp, sp, sc, lc] : List ℚ).Perm [lp', sp', sc', lc']) :
    calculate_iron_fly_pnl p sp sc lp lc cr = calculate_iron_fly_pnl p sp' sc' lp' lc' cr ∧
    calculate_iron_fly_pnl p sp sc lp lc cr =
      calculate_iron_fly_pnl p ((sortedStrikes lp sp sc lc).getD 1 0)
        ((sortedStrikes lp sp sc lc).getD 2 0) ((sortedStrikes lp sp sc lc).getD 0 0)
        ((sortedStrikes lp sp sc lc).getD 3 0) cr := by
  have hposL : ∀ x ∈ ([lp, sp, sc, lc] : List ℚ), 0 < x := by
    intro x hx; simp at hx; rcases hx with rfl | rfl | rfl | rfl <;> assumption
  have hposR : ∀ x ∈ ([lp', sp', sc', lc'] : List ℚ), 0 < x := by
    intro x hx; exact hposL x (hperm.mem_iff.mpr hx)
  have h1' : 0 < sp' := hposR sp' (by simp)
  have h2' : 0 < sc' := hposR sc' (by simp)
  have h3' : 0 < lp' := hposR lp' (by simp)
  have h4' : 0 < lc' := hposR lc' (by simp)
  obtain ⟨a, b, c, d, hs, heq⟩ := pnl_pos_eq p sp sc lp lc cr hp h1 h2 h3 h4
  obtain ⟨a', b', c', d', hs', heq'⟩ := pnl_pos_eq p sp' sc' lp' lc' cr hp h1' h2' h3' h4'
  have hsame : sortedStrikes lp sp sc lc = sortedStrikes lp' sp' sc' lc' :=
    sortedStrikes_perm_invariant hperm
  constructor
  · rw [heq, heq']
    rw [hsame] at hs
    rw [hs'] at hs
    injection hs with e1 hs; injection hs with e2 hs; injection hs with e3 hs
    injection hs with e4 hs
    subst e1; subst e2; subst e3; subst e4
    rfl
  · have hposS : ∀ x ∈ sortedStrikes lp sp sc lc, 0 < x := by
      intro x hx
      exact hposL x ((sortedStrikes_perm lp sp sc lc).mem_iff.mp hx)
    have hsorted := sortedStrikes_sorted lp sp sc lc
    rw [hs] at hsorted hposS ⊢
    have hab : a ≤ b := by
      rcases List.sorted_cons.mp hsorted with ⟨hrel, _⟩
      exact hrel b (by simp)
    have hbc : b ≤ c := by
      rcases List.sorted_cons.mp hsorted with ⟨_, hrest⟩
      rcases List.sorted_cons.mp hrest with ⟨hrel, _⟩
      exact hrel c (by simp)
    have hcd : c ≤ d := by
      rcases List.sorted_cons.mp hsorted with ⟨_, hrest⟩
      rcases List.sorted_cons.mp hrest with ⟨_, hrest'⟩
      rcases List.sorted_cons.mp hrest' with ⟨hrel, _⟩
      exact hrel d (by simp)
    have ha : 0 < a := hposS a (by simp)
    rw [heq]
    simp only [List.getD_cons_succ, List.getD_cons_zero]
    rw [pnl_eq_spec_of_chain p a b c d cr hp ha hab hbc hcd]

/-- Witness for C6: strikes supplied as (sp,sc,lp,lc) = (105,95,110,100),
a scrambled order of (95,100,105,110). -/
theorem iron_fly_pnl_perm_invariant_witness :
    (0:ℚ) < 100 ∧ (0:ℚ) < 105 ∧ (0:ℚ) < 95 ∧ (0:ℚ) < 110 ∧
    ([110, 105, 95, 100] : List ℚ).Perm [95, 100, 105, 110] ∧
    calculate_iron_fly_pnl 100 105 95 110 100 3 =
      calculate_iron_fly_pnl 100 100 105 95 110 3 :=
  ⟨by decide, by decide, by decide, by decide, by decide,
    (iron_fly_pnl_perm_invariant 100 3 105 95 110 100 100 105 95 110
      (by decide) (by decide) (by decide) (by decide) (by decide) (by decide)).1⟩

/-- C10: `calculate_iron_fly_pnl` returns 0 (without raising) when any
argument is not a number or when the price or any strike is non-positive;
the piecewise formula is applied only when price and all four strikes are
strictly positive numbers (the net credit's sign is never checked). -/
theorem iron_fly_pnl_guard_zero :
    (∀ price sp sc lp lc credit : PyVal,
      (price.isNum = false ∨ sp.isNum = false ∨ sc.isNum = false ∨
        lp.isNum = false ∨ lc.isNum = false ∨ credit.isNum = false) →
      calculate_iron_fly_pnl_py price sp sc lp lc credit = 0) ∧
    (∀ p a b c d cr : ℚ, (p ≤ 0 ∨ a ≤ 0 ∨ b ≤ 0 ∨ c ≤ 0 ∨ d ≤ 0) →
      calculate_iron_fly_pnl_py (.num p) (.num a) (.num b) (.num c) (.num d) (.num cr) = 0) ∧
    (∀ p a b c d cr : ℚ, 0 < p → 0 < a → 0 < b → 0 < c → 0 < d →
      ∃ s0 s1 s2 s3, sortedStrikes c a b d = [s0, s1, s2, s3] ∧
        calculate_iron_fly_pnl_py (.num p) (.num a) (.num b) (.num c) (.num d) (.num cr) =
          specPayoff p s0 s1 s2 s3 cr) := by
  refine ⟨?_, ?_, ?_⟩
  · intro price sp sc lp lc credit hbad
    cases price <;> cases sp <;> cases sc <;> cases lp <;> cases lc <;> cases credit <;>
      simp_all [calculate_iron_fly_pnl_py, PyVal.isNum]
  · intro p a b c d cr hbad
    show calculate_iron_fly_pnl p a b c d cr = 0
    rw [calculate_iron_fly_pnl, if_pos hbad]
  · intro p a b c d cr hp ha hb hc hd
    exact pnl_pos_eq p a b c d cr hp ha hb hc hd

/-- Witness for C10: a non-numeric price yields 0; a negative price yields
0; positive inputs evaluate the piecewise formula. -/
theorem iron_fly_pnl_guard_zero_witness :
    (PyVal.other.isNum = false ∨ (PyVal.num 100).isNum = false ∨
      (PyVal.num 105).isNum = false ∨ (PyVal.num 95).isNum = false ∨
      (PyVal.num 110).isNum = false ∨ (PyVal.num 3).isNum = false) ∧
    calculate_iron_fly_pnl_py .other (.num 100) (.num 105) (.num 95) (.num 110) (.num 3) = 0 ∧
    ((-5:ℚ) ≤ 0 ∨ (100:ℚ) ≤ 0 ∨ (105:ℚ) ≤ 0 ∨ (95:ℚ) ≤ 0 ∨ (110:ℚ) ≤ 0) ∧
    calculate_iron_fly_pnl_py (.num (-5)) (.num 100) (.num 105) (.num 95) (.num 110) (.num 3) = 0 :=
  ⟨Or.inl rfl,
    iron_fly_pnl_guard_zero.1 .other (.num 100) (.num 105) (.num 95) (.num 110) (.num 3)
      (Or.inl rfl),
    Or.inl (by decide),
    iron_fly_pnl_guard_zero.2.1 (-5) 100 105 95 110 3 (Or.inl (by decide))⟩

/-! ## `ui/layout.py`: `calculate_layout`

The monitor's visibility toggles dictionary has keys `'1'` (status box),
`'2'` (tier 1 trades), `'3'` (tier 2 trades), `'4'` (trade visualizer),
all present, so `visible_boxes.get(k, True)` is the stored Boolean. The
`height_ratios` dictionary is fixed at construction
(`trade_monitor.py` lines 52-56); only the `'visualizer'` entry (0.3) is
read by `calculate_layout`. -/

/-- The `visible_boxes` dictionary: keys `'1'`..`'4'`. -/
structure VisibleBoxes where
  box1 : Bool
  box2 : Bool
  box3 : Bool
  box4 : Bool
deriving DecidableEq

/-- A `layout['status']` / `layout['visualizer']` entry. -/
structure LayoutBox where
  visible : Bool
  y : ℤ
  x : ℤ
  height : ℤ
  width : ℤ
deriving DecidableEq

/-- A `layout['trades']['tier1']` / `['tier2']` entry. -/
structure TierBox where
  visible : Bool
  x : ℤ
  width : ℤ
deriving DecidableEq

/-- The `layout['trades']` entry. -/
structure TradesArea where
  y : ℤ
  height : ℤ
  tier1 : TierBox
  tier2 : TierBox
deriving DecidableEq

/-- The dictionary returned by `calculate_layout`. -/
structure Layout where
  status : LayoutBox
  visualizer : LayoutBox
  trades : TradesArea
deriving DecidableEq

/-- `int(available_height * height_ratios['visualizer'])` followed by the
8-row minimum (`layout.py` lines 36-37). -/
def visualizerHeight (available_height : ℤ) (visRatio : ℚ) : ℤ :=
  max (pyTrunc ((available_height : ℚ) * visRatio)) 8

/-- `calculate_layout(max_y, max_x, visible_boxes, height_ratios)`
(`layout.py` lines 5-90); `visRatio` is `height_ratios['visualizer']`. -/
def calculate_layout (max_y max_x : ℤ) (vb : VisibleBoxes) (visRatio : ℚ) : Layout :=
  let status_y : ℤ := 0
  let status_height : ℤ := 3
  let content_start_y : ℤ := if vb.box1 then status_y + status_height else 0
  let available_height : ℤ := max_y - content_start_y
  let trades_visible : Bool := vb.box2 || vb.box3
  let visualizer_visible : Bool := vb.box4
  let status : LayoutBox :=
    { visible := vb.box1, y := status_y, x := 0, height := status_height, width := max_x }
  let visualizer_height : ℤ :=
    if visualizer_visible then visualizerHeight available_height visRatio else 0
  let visualizer : LayoutBox :=
    { visible := visualizer_visible, y := content_start_y, x := 0,
      height := visualizer_height, width := max_x }
  let trades_start_y : ℤ :=
    if visualizer_visible then content_start_y + visualizer_height else content_start_y
  let trades_height_raw : ℤ :=
    if trades_visible then
      (if visualizer_visible then available_height - visualizer_height else available_height)
    else 0
  let trades_height : ℤ := if trades_height_raw > 0 then max trades_height_raw 6
    else trades_height_raw
  let col_width : ℤ := pydiv max_x 2
  let col1_x : ℤ := 0
  let col2_x : ℤ := col_width
  let tier1 : TierBox :=
    { visible := vb.box2, x := col1_x, width := if vb.box3 then col_width else max_x }
  let tier2 : TierBox :=
    { visible := vb.box3, x := col2_x, width := if vb.box2 then col_width else max_x }
  let trades : TradesArea :=
    if !vb.box2 && vb.box3 then
      { y := trades_start_y, height := trades_height, tier1 := tier1,
        tier2 := { tier2 with x := col1_x, width := max_x } }
    else if vb.box2 && !vb.box3 then
      { y := trades_start_y, height := trades_height, tier1 := { tier1 with width := max_x },
        tier2 := tier2 }
    else
      { y := trades_start_y, height := trades_height, tier1 := tier1, tier2 := tier2 }
  { status := status, visualizer := visualizer, trades := trades }

/-! ### Helper lemmas for the layout -/

lemma pydiv_two (a : ℤ) : pydiv a 2 = a / 2 :=
  Int.fdiv_eq_ediv a (by norm_num)

lemma visualizerHeight_bounds (a : ℤ) (h : 17 ≤ a) :
    8 ≤ visualizerHeight a (3/10) ∧ visualizerHeight a (3/10) ≤ a - 6 := by
  refine ⟨le_max_right _ _, max_le ?_ (by omega)⟩
  have ha : (17 : ℚ) ≤ (a : ℚ) := by exact_mod_cast h
  rw [pyTrunc, if_neg (by linarith)]
  have h1 : ((a : ℚ) * (3/10)) ≤ ((a - 6 : ℤ) : ℚ) := by push_cast; linarith
  calc ⌊((a : ℚ) * (3/10))⌋ ≤ ⌊((a - 6 : ℤ) : ℚ)⌋ := Int.floor_le_floor h1
    _ = a - 6 := Int.floor_intCast _

/-- Cell `(r, c)` lies inside a status/visualizer box. -/
def cellInBox (b : LayoutBox) (r c : ℤ) : Prop :=
  b.y ≤ r ∧ r < b.y + b.height ∧ b.x ≤ c ∧ c < b.x + b.width

/-- Cell `(r, c)` lies inside a ranked-tier box (whose vertical extent is
the trades area's). -/
def cellInTier (t : TradesArea) (tb : TierBox) (r c : ℤ) : Prop :=
  t.y ≤ r ∧ r < t.y + t.height ∧ tb.x ≤ c ∧ c < tb.x + tb.width

/-- The geometric soundness property of `calculate_layout` at the
monitor's fixed visualizer ratio 0.3: minimum height floors, all visible
boxes inside the terminal, stacked heights within the terminal height, and
pairwise disjointness of the visible boxes. -/
def layoutSpec (max_y max_x : ℤ) (L : Layout) : Prop :=
  -- minimum height floors
  (L.status.visible = true → 3 ≤ L.status.height) ∧
  (L.visualizer.visible = true → 8 ≤ L.visualizer.height) ∧
  ((L.trades.tier1.visible = true ∨ L.trades.tier2.visible = true) → 6 ≤ L.trades.height) ∧
  -- every visible box fits inside the terminal
  (L.status.visible = true → 0 ≤ L.status.y ∧ L.status.y + L.status.height ≤ max_y ∧
    0 ≤ L.status.x ∧ L.status.x + L.status.width ≤ max_x) ∧
  (L.visualizer.visible = true → 0 ≤ L.visualizer.y ∧
    L.visualizer.y + L.visualizer.height ≤ max_y ∧ 0 ≤ L.visualizer.x ∧
    L.visualizer.x + L.visualizer.width ≤ max_x) ∧
  (L.trades.tier1.visible = true → 0 ≤ L.trades.y ∧ L.trades.y + L.trades.height ≤ max_y ∧
    0 ≤ L.trades.tier1.x ∧ L.trades.tier1.x + L.trades.tier1.width ≤ max_x) ∧
  (L.trades.tier2.visible = true → 0 ≤ L.trades.y ∧ L.trades.y + L.trades.height ≤ max_y ∧
    0 ≤ L.trades.tier2.x ∧ L.trades.tier2.x + L.trades.tier2.width ≤ max_x) ∧
  -- total occupied height never exceeds the terminal height
  ((if L.status.visible = true then L.status.height else 0) +
    (if L.visualizer.visible = true then L.visualizer.height else 0) +
    (if L.trades.tier1.visible = true ∨ L.trades.tier2.visible = true then L.trades.height
      else 0) ≤ max_y) ∧
  -- pairwise disjointness of visible boxes
  (∀ r c, L.status.visible = true → L.visualizer.visible = true →
    cellInBox L.status r c → cellInBox L.visualizer r c → False) ∧
  (∀ r c, L.status.visible = true → L.trades.tier1.visible = true →
    cellInBox L.status r c → cellInTier L.trades L.trades.tier1 r c → False) ∧
  (∀ r c, L.status.visible = true → L.trades.tier2.visible = true →
    cellInBox L.status r c → cellInTier L.trades L.trades.tier2 r c → False) ∧
  (∀ r c, L.visualizer.visible = true → L.trades.tier1.visible = true →
    cellInBox L.visualizer r c → cellInTier L.trades L.trades.tier1 r c → False) ∧
  (∀ r c, L.visualizer.visible = true → L.trades.tier2.visible = true →
    cellInBox L.visualizer r c → cellInTier L.trades L.trades.tier2 r c → False) ∧
  (∀ r c, L.trades.tier1.visible = true → L.trades.tier2.visible = true →
    cellInTier L.trades L.trades.tier1 r c → cellInTier L.trades L.trades.tier2 r c → False)

set_option maxHeartbeats 2000000 in
/-- C2: for every terminal at least 20 rows by 80 columns and every
combination of visibility toggles, the layout's visible rectangles are
pairwise non-overlapping, fit inside the terminal, their stacked heights
never exceed the terminal height, and each visible rectangle respects its
minimum height floor (status 3, visualizer 8, ranked-trades area 6). -/
theorem calculate_layout_geometry (max_y max_x : ℤ) (vb : VisibleBoxes)
    (hy : 20 ≤ max_y) (hx : 80 ≤ max_x) :
    layoutSpec max_y max_x (calculate_layout max_y max_x vb (3/10)) := by
  obtain ⟨b1, b2, b3, b4⟩ := vb
  have hv3 := visualizerHeight_bounds (max_y - 3) (by omega)
  have hv0 := visualizerHeight_bounds max_y (by omega)
  cases b1 <;> cases b2 <;> cases b3 <;> cases b4
  all_goals simp [layoutSpec, calculate_layout, cellInBox, cellInTier, pydiv_two]
  all_goals try split_ifs
  all_goals repeat' apply And.intro
  all_goals intros
  all_goals omega

/-- Witness for C2 at a 30x100 terminal with all boxes toggled on. -/
theorem calculate_layout_geometry_witness :
    (20:ℤ) ≤ 30 ∧ (80:ℤ) ≤ 100 ∧
    layoutSpec 30 100 (calculate_layout 30 100 ⟨true, true, true, true⟩ (3/10)) :=
  ⟨by decide, by decide,
    calculate_layout_geometry 30 100 ⟨true, true, true, true⟩ (by decide) (by decide)⟩

/-- C7: for every terminal size, ratio, and toggle combination, each box's
`visible` flag equals its toggle exactly; a single visible ranked panel
starts at x=0 and spans the full terminal width; with both ranked panels
visible, tier 1 sits at x=0 and tier 2 at the half-way column, each with
half the terminal width (floor division by 2). -/
theorem calculate_layout_visibility_widths (max_y max_x : ℤ) (vb : VisibleBoxes) (r : ℚ) :
    ((calculate_layout max_y max_x vb r).status.visible = vb.box1 ∧
      (calculate_layout max_y max_x vb r).visualizer.visible = vb.box4 ∧
      (calculate_layout max_y max_x vb r).trades.tier1.visible = vb.box2 ∧
      (calculate_layout max_y max_x vb r).trades.tier2.visible = vb.box3) ∧
    (vb.box2 = true → vb.box3 = false →
      (calculate_layout max_y max_x vb r).trades.tier1.x = 0 ∧
      (calculate_layout max_y max_x vb r).trades.tier1.width = max_x) ∧
    (vb.box2 = false → vb.box3 = true →
      (calculate_layout max_y max_x vb r).trades.tier2.x = 0 ∧
      (calculate_layout max_y max_x vb r).trades.tier2.width = max_x) ∧
    (vb.box2 = true → vb.box3 = true →
      (calculate_layout max_y max_x vb r).trades.tier1.x = 0 ∧
      (calculate_layout max_y max_x vb r).trades.tier1.width = pydiv max_x 2 ∧
      (calculate_layout max_y max_x vb r).trades.tier2.x = pydiv max_x 2 ∧
      (calculate_layout max_y max_x vb r).trades.tier2.width = pydiv max_x 2) := by
  obtain ⟨b1, b2, b3, b4⟩ := vb
  cases b1 <;> cases b2 <;> cases b3 <;> cases b4 <;>
    simp [calculate_layout]

/-- Witness for C7 with only the tier-2 panel toggled on, at an odd
81-column width: the single visible ranked panel spans the full width. -/
theorem calculate_layout_visibility_widths_witness :
    (calculate_layout 25 81 ⟨true, false, true, false⟩ (3/10)).trades.tier2.x = 0 ∧
    (calculate_layout 25 81 ⟨true, false, true, false⟩ (3/10)).trades.tier2.width = 81 :=
  (calculate_layout_visibility_widths 25 81 ⟨true, false, true, false⟩ (3/10)).2.2.1 rfl rfl

/-- C4 counterexample: on a 2-row terminal (available height 2-3 = -1 ≤ 0)
with all toggles on, `calculate_layout` still marks the visualizer and both
ranked panels visible, gives the visualizer its 8-row floor (overflowing
the 2-row terminal), and returns a negative trades height — it does not
mark content panels not-visible for the frame. -/
theorem calculate_layout_no_degradation_counterexample :
    ((2:ℤ) - 3 ≤ 0) ∧
    (calculate_layout 2 80 ⟨true, true, true, true⟩ (3/10)).visualizer.visible = true ∧
    (calculate_layout 2 80 ⟨true, true, true, true⟩ (3/10)).trades.tier1.visible = true ∧
    (calculate_layout 2 80 ⟨true, true, true, true⟩ (3/10)).trades.tier2.visible = true ∧
    (calculate_layout 2 80 ⟨true, true, true, true⟩ (3/10)).visualizer.height = 8 ∧
    (calculate_layout 2 80 ⟨true, true, true, true⟩ (3/10)).trades.height = -9 := by
  refine ⟨by decide, ?_, ?_, ?_, ?_, ?_⟩ <;>
    norm_num [calculate_layout, visualizerHeight, pyTrunc]

/-- C4 amended: `calculate_layout` never alters visibility based on the
available height — toggled-on content panels remain visible even when the
available height (after the status strip) is zero or negative, and a
visible visualizer still receives at least its 8-row floor; graceful
degradation on tiny terminals is provided by the caller's 20x80 guard in
`trade_monitor.run`, not by `calculate_layout`. -/
theorem calculate_layout_visibility_ignores_height (max_y max_x : ℤ) (vb : VisibleBoxes)
    (r : ℚ) (h : max_y - (if vb.box1 = true then 3 else 0) ≤ 0) :
    (calculate_layout max_y max_x vb r).visualizer.visible = vb.box4 ∧
    (calculate_layout max_y max_x vb r).trades.tier1.visible = vb.box2 ∧
    (calculate_layout max_y max_x vb r).trades.tier2.visible = vb.box3 ∧
    (vb.box4 = true → 8 ≤ (calculate_layout max_y max_x vb r).visualizer.height) := by
  obtain ⟨b1, b2, b3, b4⟩ := vb
  cases b1 <;> cases b2 <;> cases b3 <;> cases b4 <;>
    simp [calculate_layout, visualizerHeight]

/-- Witness for C4 (amended) at the 2x80 terminal with all toggles on. -/
theorem calculate_layout_visibility_ignores_height_witness :
    ((2:ℤ) - (if (true : Bool) = true then 3 else 0) ≤ 0) ∧
    ((calculate_layout 2 80 ⟨true, true, true, true⟩ (3/10)).visualizer.visible = true ∧
      (calculate_layout 2 80 ⟨true, true, true, true⟩ (3/10)).trades.tier1.visible = true ∧
      (calculate_layout 2 80 ⟨true, true, true, true⟩ (3/10)).trades.tier2.visible = true ∧
      ((true : Bool) = true →
        8 ≤ (calculate_layout 2 80 ⟨true, true, true, true⟩ (3/10)).visualizer.height)) :=
  ⟨by decide, calculate_layout_visibility_ignores_height 2 80 ⟨true, true, true, true⟩ (3/10)
    (by decide)⟩

/-! ## `trade_monitor.py`: `TradeMonitor.fetch_data` and snapshot publication

Only the metric fields the dashboard engine reads are modelled: `tier`
(read with default 1 when partitioning), and the two optional fields
`float_ratio` / `expected_move_pct` whose presence changes card heights. -/

/-- The fields of a per-ticker metrics dictionary consumed by the
dashboard engine; `none` models an absent key. -/
structure MetricSet where
  tier : Option ℤ := none
  float_ratio : Option ℚ := none
  expected_move_pct : Option ℚ := none
deriving DecidableEq

/-- The mutable monitor fields published by `fetch_data`
(`trade_monitor.py` lines 36-39, 87-89, 102). -/
structure MonitorState where
  tier1_tickers : List String
  tier2_tickers : List String
  stock_metrics : List (String × MetricSet)
  last_update : Option ℕ
deriving DecidableEq

/-- Result of `self.scanner.scan_earnings(...)`: either an exception or
`(recommended, stock_metrics)` (the middle return value is discarded). -/
def ScanResult : Type :=
  Except String (List String × List (String × MetricSet))

/-- The list comprehension
`[t for t in recommended if stock_metrics[t].get('tier', 1) == k]`
(`trade_monitor.py` lines 87-88): evaluating `stock_metrics[t]` for a
ticker missing from the mapping raises `KeyError` (modelled as `.error`),
aborting the whole comprehension before anything is assigned. -/
def tierComprehension (metrics : List (String × MetricSet)) (k : ℤ) :
    List String → Except String (List String)
  | [] => .ok []
  | t :: ts =>
    match metrics.lookup t with
    | none => .error t
    | some ms =>
      match tierComprehension metrics k ts with
      | .error e => .error e
      | .ok rest => .ok (if ms.tier.getD 1 = k then t :: rest else rest)

/-- `TradeMonitor.fetch_data` (`trade_monitor.py` lines 62-106): the outer
`try/except` catches any error from the scan call (or from the tier
comprehensions) and leaves every published field unchanged; on success the
four fields are assigned and `last_update` is set to the current time.
(The second comprehension cannot fail when the first succeeded — it
performs the same lookups — so returning the old state there is
unreachable.) -/
def fetch_data (st : MonitorState) (scan : ScanResult) (now : ℕ) : MonitorState :=
  match scan with
  | .error _ => st
  | .ok (recommended, metrics) =>
    match tierComprehension metrics 1 recommended with
    | .error _ => st
    | .ok t1 =>
      match tierComprehension metrics 2 recommended with
      | .error _ => st
      | .ok t2 =>
        { tier1_tickers := t1, tier2_tickers := t2, stock_metrics := metrics,
          last_update := some now }

/-- C5: when the external scan call raises, `fetch_data` returns without
raising and the previously published data — tier lists, metrics mapping,
and `last_update` — is entirely unchanged (the stale state stays in effect
with no partial update). -/
theorem fetch_data_error_preserves_state (st : MonitorState) (msg : String) (now : ℕ) :
    fetch_data st (.error msg) now = st ∧
    (fetch_data st (.error msg) now).tier1_tickers = st.tier1_tickers ∧
    (fetch_data st (.error msg) now).tier2_tickers = st.tier2_tickers ∧
    (fetch_data st (.error msg) now).stock_metrics = st.stock_metrics ∧
    (fetch_data st (.error msg) now).last_update = st.last_update :=
  ⟨rfl, rfl, rfl, rfl, rfl⟩

/-- The sequence of field assignments `fetch_data` performs on success, in
source order: `tier1_tickers` (line 87), `tier2_tickers` (line 88),
`stock_metrics` (line 89), `last_update` (line 102). Each single Python
attribute assignment is atomic; the sequence is not. -/
def publishWrites (t1 t2 : List String) (m : List (String × MetricSet)) (now : ℕ) :
    List (MonitorState → MonitorState) :=
  [fun st => { st with tier1_tickers := t1 },
   fun st => { st with tier2_tickers := t2 },
   fun st => { st with stock_metrics := m },
   fun st => { st with last_update := some now }]

/-- State seen by a concurrent reader that runs after the first `k` of the
publication's writes. -/
def observeAfter (st : MonitorState) (ws : List (MonitorState → MonitorState)) (k : ℕ) :
    MonitorState :=
  (ws.take k).foldl (fun s w => w s) st

/-- C8 counterexample: with cycle-1 data published (tier1 `["AAA"]`, tier2
`["BBB"]`) and cycle-2 data `["CCC"]`/`["DDD"]` being published, a reader
interleaved after the first field assignment observes tier1 from cycle 2
together with tier2 from cycle 1 — neither the old snapshot nor the new
one: publication is not a single atomic reference swap. -/
theorem snapshot_publish_not_atomic_counterexample :
    observeAfter ⟨["AAA"], ["BBB"], [], some 1⟩ (publishWrites ["CCC"] ["DDD"] [] 2) 1 ≠
      (⟨["AAA"], ["BBB"], [], some 1⟩ : MonitorState) ∧
    observeAfter ⟨["AAA"], ["BBB"], [], some 1⟩ (publishWrites ["CCC"] ["DDD"] [] 2) 1 ≠
      observeAfter ⟨["AAA"], ["BBB"], [], some 1⟩ (publishWrites ["CCC"] ["DDD"] [] 2) 4 ∧
    (observeAfter ⟨["AAA"], ["BBB"], [], some 1⟩
      (publishWrites ["CCC"] ["DDD"] [] 2) 1).tier1_tickers = ["CCC"] ∧
    (observeAfter ⟨["AAA"], ["BBB"], [], some 1⟩
      (publishWrites ["CCC"] ["DDD"] [] 2) 1).tier2_tickers = ["BBB"] := by
  refine ⟨?_, ?_, rfl, rfl⟩ <;> decide

/-- C8 amended: `fetch_data` publishes through four sequential per-field
assignments (tier1 list, tier2 list, metrics mapping, timestamp), each
individually atomic; the intermediate states a concurrent reader can
observe are exactly the prefixes of that write sequence, so a reader
between assignments sees a mix of fields from two scan cycles. -/
theorem snapshot_publish_sequence (st : MonitorState) (t1 t2 : List String)
    (m : List (String × MetricSet)) (now : ℕ) :
    observeAfter st (publishWrites t1 t2 m now) 0 = st ∧
    observeAfter st (publishWrites t1 t2 m now) 1 = { st with tier1_tickers := t1 } ∧
    observeAfter st (publishWrites t1 t2 m now) 2 =
      { st with tier1_tickers := t1, tier2_tickers := t2 } ∧
    observeAfter st (publishWrites t1 t2 m now) 3 =
      { st with tier1_tickers := t1, tier2_tickers := t2, stock_metrics := m } ∧
    observeAfter st (publishWrites t1 t2 m now) 4 = ⟨t1, t2, m, some now⟩ :=
  ⟨rfl, rfl, rfl, rfl, rfl⟩

/-! ## `ui/components.py`: `draw_btop_box`

The curses window is a bounded character grid `max_y` rows by `max_x`
columns. `stdscr.addstr(y, x, s)` with a start position outside the
window raises `curses.error` and writes nothing; a write starting in
bounds is clipped at the end of the row (curses never writes outside the
window). Every `addstr` in `draw_btop_box` is wrapped in
`try/except curses.error: pass`, so an erroring write is simply dropped;
`pyAddstr` therefore returns the written grid directly. -/

/-- A bounded character grid (the curses `stdscr`). -/
structure Grid where
  maxY : ℤ
  maxX : ℤ
  cells : ℤ → ℤ → Char

/-- `stdscr.addstr(y, x, s)` under `try/except`: no-op when the start
position is out of bounds, otherwise writes `s` left-to-right starting at
`(y, x)`, clipped at the right edge of the grid. -/
def pyAddstr (g : Grid) (y x : ℤ) (s : List Char) : Grid :=
  if 0 ≤ y ∧ y < g.maxY ∧ 0 ≤ x ∧ x < g.maxX then
    { g with cells := fun r c =>
        if r = y ∧ x ≤ c ∧ c < x + s.length ∧ c < g.maxX then s.getD (c - x).toNat ' '
        else g.cells r c }
  else g

/-- The BTOP superscript mapping applied to each character of `box_num`
(`components.py` lines 81-93); it is length-preserving. -/
def superscriptDigit (ch : Char) : Char :=
  if ch = '0' then '⁰'
  else if ch = '1' then '¹'
  else if ch = '2' then '²'
  else if ch = '3' then '³'
  else if ch = '4' then '⁴'
  else if ch = '5' then '⁵'
  else if ch = '6' then '⁶'
  else if ch = '7' then '⁷'
  else if ch = '8' then '⁸'
  else if ch = '9' then '⁹'
  else ch

/-- The sequence of `addstr` calls `draw_btop_box` performs, in source
order: the four corners, the horizontal-border loop
`for j in range(x+1, x+w-1)`, the vertical-border loop
`for i in range(y+1, y+h-1)`, then the title (`components.py` lines
25-102). Every guard in the source depends only on `y, x, h, w, max_y,
max_x` and the title — never on the grid contents — so the straight-line
guarded writes are exactly this list, applied left to right. -/
def boxWrites (my mx y x h w : ℤ) (title : List Char) (box_num : Option (List Char)) :
    List (ℤ × ℤ × List Char) :=
  (if y < my ∧ x ≤ mx then [(y, x, ['╭'])] else []) ++
  (if y < my ∧ x + w - 1 < mx then [(y, x + w - 1, ['╮'])] else []) ++
  (if y + h - 1 < my ∧ x < mx then [(y + h - 1, x, ['╰'])] else []) ++
  (if y + h - 1 < my ∧ x + w - 1 < mx then [(y + h - 1, x + w - 1, ['╯'])] else []) ++
  ((List.range (w - 2).toNat).flatMap (fun i =>
    (if x + 1 + (i : ℤ) < mx then
      (if y < my then [(y, x + 1 + (i : ℤ), ['─'])] else []) ++
      (if y + h - 1 < my then [(y + h - 1, x + 1 + (i : ℤ), ['─'])] else [])
    else []))) ++
  ((List.range (h - 2).toNat).flatMap (fun i =>
    (if y + 1 + (i : ℤ) < my then
      (if x < mx then [(y + 1 + (i : ℤ), x, ['│'])] else []) ++
      (if x + w - 1 < mx then [(y + 1 + (i : ℤ), x + w - 1, ['│'])] else [])
    else []))) ++
  (if title ≠ [] then
    (match box_num with
      | some bn =>
        if (([' '] ++ bn.map superscriptDigit ++ title ++ [' ']).length : ℤ) < w - 4 ∧
            y < my ∧ x + 2 < mx then
          [(y, x + 2, [' '] ++ bn.map superscriptDigit ++ title ++ [' '])]
        else []
      | none =>
        if (([' '] ++ title ++ [' ']).length : ℤ) < w - 4 ∧ y < my ∧ x + 2 < mx then
          [(y, x + 2, [' '] ++ title ++ [' '])]
        else [])
  else [])

/-- `draw_btop_box(stdscr, y, x, h, w, title, color, box_num)`
(`components.py` lines 7-102): the guarded writes applied in source
order. -/
def draw_btop_box (g : Grid) (y x h w : ℤ) (title : List Char)
    (box_num : Option (List Char)) : Grid :=
  (boxWrites g.maxY g.maxX y x h w title box_num).foldl
    (fun gg wr => pyAddstr gg wr.1 wr.2.1 wr.2.2) g

/-- A cell outside the grid bounds. -/
def outOfBounds (g : Grid) (r c : ℤ) : Prop :=
  r < 0 ∨ g.maxY ≤ r ∨ c < 0 ∨ g.maxX ≤ c

lemma pyAddstr_maxY (g : Grid) (y x : ℤ) (s : List Char) :
    (pyAddstr g y x s).maxY = g.maxY := by
  unfold pyAddstr; split <;> rfl

lemma pyAddstr_maxX (g : Grid) (y x : ℤ) (s : List Char) :
    (pyAddstr g y x s).maxX = g.maxX := by
  unfold pyAddstr; split <;> rfl

lemma pyAddstr_outside (g : Grid) (y x : ℤ) (s : List Char) (r c : ℤ)
    (h : outOfBounds g r c) : (pyAddstr g y x s).cells r c = g.cells r c := by
  unfold pyAddstr
  split
  · show (if r = y ∧ x ≤ c ∧ c < x + s.length ∧ c < g.maxX then s.getD (c - x).toNat ' '
      else g.cells r c) = g.cells r c
    unfold outOfBounds at h
    rw [if_neg]
    rintro ⟨rfl, h2, h3, h4⟩
    rename_i hin
    omega
  · rfl

/-- C9: `draw_btop_box` clips silently — it is a total function, and for
every grid, every box position, size, title, and box number (including
boxes partly or wholly outside the grid), every cell outside the grid
bounds is left untouched: all writes land inside the bounds and
out-of-bounds write attempts are simply dropped. -/
theorem draw_btop_box_clips (g : Grid) (y x h w : ℤ) (title : List Char)
    (box_num : Option (List Char)) (r c : ℤ) (hout : outOfBounds g r c) :
    (draw_btop_box g y x h w title box_num).cells r c = g.cells r c := by
  suffices key : ∀ (ws : List (ℤ × ℤ × List Char)) (gg : Grid),
      gg.maxY = g.maxY → gg.maxX = g.maxX → gg.cells r c = g.cells r c →
      (ws.foldl (fun gg wr => pyAddstr gg wr.1 wr.2.1 wr.2.2) gg).cells r c = g.cells r c by
    exact key _ g rfl rfl rfl
  intro ws
  induction ws with
  | nil => intro gg _ _ h3; exact h3
  | cons wr rest ih =>
    intro gg h1 h2 h3
    have hout' : outOfBounds gg r c := by
      unfold outOfBounds at hout ⊢
      omega
    refine ih _ ?_ ?_ ?_
    · rw [pyAddstr_maxY, h1]
    · rw [pyAddstr_maxX, h2]
    · rw [pyAddstr_outside _ _ _ _ r c hout', h3]

/-- Witness grid for the clipping theorem. -/
def sampleGrid : Grid :=
  { maxY := 5, maxX := 5, cells := fun _ _ => ' ' }

/-- Witness for C9: drawing a 10x10 box on a 5x5 grid leaves the
out-of-bounds cell (7, 2) untouched. -/
theorem draw_btop_box_clips_witness :
    outOfBounds sampleGrid 7 2 ∧
    (draw_btop_box sampleGrid 0 0 10 10 ['t'] none).cells 7 2 = sampleGrid.cells 7 2 :=
  ⟨Or.inr (Or.inl (by decide)),
    draw_btop_box_clips sampleGrid 0 0 10 10 ['t'] none 7 2 (Or.inr (Or.inl (by decide)))⟩

/-! ## Card packing (`trade_monitor.run`) and hit-testing (`ui/mouse_handler.py`)

The packer places ticker cards into a ranked panel with round-robin
column assignment (`trade_monitor.py` lines 303-341 for tier 1 and
364-403 for tier 2 — identical code, both with `ticker_width = 38`); a
card's height comes from `draw_ticker_box` (`ticker_display.py` lines
13-17): a base of **5** rows plus one per optional metric, and the drawn
card box is 36 columns wide. The hit-tester replays this placement
(`mouse_handler.py`), but with a base height of **4** rows
(lines 55-59, 98-102) and, for tier 2, a column stride of **30**
(line 81) instead of the packer's 38. -/

/-- Card height returned by `draw_ticker_box` (`ticker_display.py`
lines 13-17). -/
def cardHeight (ms : MetricSet) : ℤ :=
  5 + (if ms.float_ratio.isSome then 1 else 0) + (if ms.expected_move_pct.isSome then 1 else 0)

/-- Card height assumed by `handle_mouse_event` (`mouse_handler.py`
lines 55-59): base 4, not 5. -/
def hitHeight (ms : MetricSet) : ℤ :=
  4 + (if ms.float_ratio.isSome then 1 else 0) + (if ms.expected_move_pct.isSome then 1 else 0)

/-- One placed ticker card: its top row, left column (where
`draw_ticker_box` is called), height, and the drawn box width (36). -/
structure Placement where
  ticker : String
  y : ℤ
  x : ℤ
  height : ℤ
  width : ℤ
deriving DecidableEq

/-- The packer's placement loop (`trade_monitor.py` lines 317-341):
round-robin column choice by global list index, skip (without advancing)
once a column's cursor reaches `trades_y + trades_height - 2`, card height
queried per candidate. A ticker missing from the metrics mapping would
raise `KeyError` in the source (there is no guard); the claims considered
here assume every ranked ticker has a metrics entry, and the model skips
such a ticker. -/
def packLoop (cols : ℕ) (bottom tx : ℤ) (metrics : List (String × MetricSet)) :
    ℕ → List ℤ → List String → List Placement
  | _, _, [] => []
  | i, cursors, t :: ts =>
    let col := i % cols
    let cy := cursors.getD col 0
    if bottom ≤ cy then packLoop cols bottom tx metrics (i + 1) cursors ts
    else
      match metrics.lookup t with
      | none => packLoop cols bottom tx metrics (i + 1) cursors ts
      | some ms =>
        ⟨t, cy, tx + 1 + (col : ℤ) * 38, cardHeight ms, 36⟩ ::
          packLoop cols bottom tx metrics (i + 1) (cursors.set col (cy + cardHeight ms)) ts

/-- Card packing for one ranked panel (`trade_monitor.py` lines 304-341):
`columns = max(1, panel_width // 38)`, one cursor per column starting at
`trades_y + 1`, column `col` starting at `panel_x + 1 + col * 38`. -/
def packCards (tx twidth ty theight : ℤ) (tickers : List String)
    (metrics : List (String × MetricSet)) : List Placement :=
  let cols : ℕ := (max 1 (pydiv twidth 38)).toNat
  packLoop cols (ty + theight - 2) tx metrics 0 (List.replicate cols (ty + 1)) tickers

/-- The hit-tester's per-column replay (`mouse_handler.py` lines 45-72 and
88-115): walk the ranked list, skip tickers without metrics, count every
ticker with metrics (`tickers_in_column`), and for those whose count maps
to the clicked column advance a vertical cursor by `hitHeight`, returning
the first ticker whose assumed span contains the click row. -/
def hitScan (cols colIdx my : ℤ) (metrics : List (String × MetricSet)) :
    ℤ → ℤ → List String → Option String
  | _, _, [] => none
  | seen, y_pos, t :: ts =>
    match metrics.lookup t with
    | none => hitScan cols colIdx my metrics seen y_pos ts
    | some ms =>
      if seen % cols = colIdx then
        if y_pos ≤ my ∧ my < y_pos + hitHeight ms then some t
        else hitScan cols colIdx my metrics (seen + 1) (y_pos + hitHeight ms) ts
      else hitScan cols colIdx my metrics (seen + 1) y_pos ts

/-- `handle_mouse_event` (`mouse_handler.py` lines 10-121) for a click at
grid column `mx`, row `my`: tier 1 is checked first with column stride 38,
then tier 2 with stride 30; returns the selected ticker and its tier, or
`(none, none)`. -/
def handle_mouse_event (mx my : ℤ) (L : Layout) (tier1_tickers tier2_tickers : List String)
    (metrics : List (String × MetricSet)) : Option String × Option ℤ :=
  let sel1 : Option String :=
    if L.trades.tier1.visible = true ∧
        L.trades.tier1.x ≤ mx ∧ mx < L.trades.tier1.x + L.trades.tier1.width ∧
        L.trades.y ≤ my ∧ my < L.trades.y + L.trades.height then
      hitScan (max 1 (pydiv L.trades.tier1.width 38))
        (min (pydiv (mx - L.trades.tier1.x) 38) (max 1 (pydiv L.trades.tier1.width 38) - 1))
        my metrics 0 (L.trades.y + 1) tier1_tickers
    else none
  match sel1 with
  | some t => (some t, some 1)
  | none =>
    if L.trades.tier2.visible = true ∧
        L.trades.tier2.x ≤ mx ∧ mx < L.trades.tier2.x + L.trades.tier2.width ∧
        L.trades.y ≤ my ∧ my < L.trades.y + L.trades.height then
      match hitScan (max 1 (pydiv L.trades.tier2.width 30))
          (min (pydiv (mx - L.trades.tier2.x) 30) (max 1 (pydiv L.trades.tier2.width 30) - 1))
          my metrics 0 (L.trades.y + 1) tier2_tickers with
      | some t => (some t, some 2)
      | none => (none, none)
    else (none, none)

/-- Three tier-1 tickers, all present in the metrics mapping, none with
optional metrics (card height 5, assumed hit height 4). -/
def demoMetrics : List (String × MetricSet) :=
  [("AAA", { tier := some 1 }), ("BBB", { tier := some 1 }), ("CCC", { tier := some 1 })]

/-- The layout of a 30x80 terminal with every box visible at the
monitor's fixed ratios: status rows 0-2, visualizer rows 3-10, trades
rows 11-29, tier panels 40 columns each. -/
lemma demo_layout :
    calculate_layout 30 80 ⟨true, true, true, true⟩ (3/10) =
      ⟨⟨true, 0, 0, 3, 80⟩, ⟨true, 3, 0, 8, 80⟩, ⟨11, 19, ⟨true, 0, 40⟩, ⟨true, 40, 40⟩⟩⟩ := by
  norm_num [calculate_layout, visualizerHeight, pyTrunc, pydiv_two]

/-- C1 (falsified by the code): on a 30x80 terminal with all boxes
visible, tier-1 list `[AAA, BBB, CCC]` (all with metrics entries, no
optional metrics), the packer places `CCC` at rows 22-26, columns 1-36 of
the tier-1 panel; a click at the center of that placement, grid cell
(row 24, column 19), returns `(none, none)` instead of `(CCC, 1)`: the
hit-tester replays cards with base height 4 while `draw_ticker_box`
actually uses 5, so it does not invert the packer. -/
theorem hit_tester_does_not_invert_packer :
    packCards 0 40 11 19 ["AAA", "BBB", "CCC"] demoMetrics =
      [⟨"AAA", 12, 1, 5, 36⟩, ⟨"BBB", 17, 1, 5, 36⟩, ⟨"CCC", 22, 1, 5, 36⟩] ∧
    (22 + 5 / 2 : ℤ) = 24 ∧ (1 + 36 / 2 : ℤ) = 19 ∧
    handle_mouse_event 19 24 (calculate_layout 30 80 ⟨true, true, true, true⟩ (3/10))
      ["AAA", "BBB", "CCC"] [] demoMetrics = (none, none) := by
  refine ⟨by decide, by decide, by decide, ?_⟩
  rw [demo_layout]
  decide

end EarningsEdge
